import Mathlib

/-!
Verification of the resilience module of the youtube-mcp-remote repository:
the handler-health state machine, the ordered-fallback executor
(`withResilience`), the health-store persistence contract, and the n8n
alert dispatcher.

The TypeScript source is embedded shallowly:

* `HandlerHealth` / `HealthState` mirror the persisted `tool-health.json`
  records (`failures`, `degraded`, `lastError`, `lastFailure`); the JSON
  object is an association list with first-occurrence lookup and
  replace-or-append update, matching JS object semantics.
* Effects are made explicit in a `World`: `stored` is the current contents
  of the health file, `saveOk` is an oracle giving the outcome of each
  successive `writeFileSync` (an empty oracle means every write succeeds),
  `transportOk` is an oracle for each outbound alert `fetch`, and `now` is
  the clock read by `new Date()`.
* A handler invocation for one call is its name together with the outcome
  `fn(args)` settles to this call (`Except.ok` result text or
  `Except.error` message), since the wrapped operations are external
  collaborators.
* `await` sequences effects, so the interpreter emits an event trace:
  `attempt` when a handler's `fn` is invoked, `alertPost` / `logError` /
  `alertSettled` for the alert dispatcher, in the order the awaited code
  performs them.  An uncaught JS exception is `Except.error` in the result.
-/

namespace Resilience

/-- One record of `tool-health.json` (source `interface HandlerHealth`):
`failures` is the consecutive-failure counter, `degraded` the sticky flag,
`lastError` / `lastFailure` diagnostics (timestamps are modelled as `Nat`). -/
structure HandlerHealth where
  failures : Nat
  degraded : Bool
  lastError : Option String := none
  lastFailure : Option Nat := none
deriving Repr, DecidableEq

/-- The record `{ failures: 0, degraded: false }` written by
`recordSuccess` / `resetTool`, and the default that `getHandler` returns
for an absent key. -/
def healthyRecord : HandlerHealth := { failures := 0, degraded := false }

/-- The parsed `tool-health.json`: a JS object keyed by
`"toolName:handlerName"`, embedded as an association list. -/
abbrev HealthState := List (String × HandlerHealth)

/-- Key lookup in the health object (first occurrence wins, as in JS,
where keys are unique anyway). -/
def lookupKey : HealthState → String → Option HandlerHealth
  | [], _ => none
  | (k, v) :: rest, key => if k = key then some v else lookupKey rest key

/-- `state[key] = h`: replace the binding if the key is present, append it
otherwise. -/
def setKey : HealthState → String → HandlerHealth → HealthState
  | [], key, v => [(key, v)]
  | (k, v0) :: rest, key, v =>
      if k = key then (key, v) :: rest else (k, v0) :: setKey rest key v

/-- Source `getHandler`: the stored record, or the default healthy record
when the key is absent. -/
def getHandler (state : HealthState) (key : String) : HandlerHealth :=
  (lookupKey state key).getD healthyRecord

/-- Source `FAILURE_THRESHOLD = 3`. -/
def FAILURE_THRESHOLD : Nat := 3

/-- The key `` `${toolName}:${handlerName}` ``. -/
def healthKey (tool hname : String) : String := tool ++ ":" ++ hname

/-- Configuration read from the environment: `N8N_ALERT_WEBHOOK_URL`
(empty string when unset, which is falsy in JS) and `PUBLIC_URL`. -/
structure Config where
  webhookUrl : String := ""
  serverUrl : String := ""
deriving Repr, DecidableEq

/-- The explicit effect state: the persisted file contents, the fault
oracles for file writes and alert transport (head consumed per operation,
an exhausted oracle means the operation succeeds), and the clock. -/
structure World where
  stored : HealthState := []
  saveOk : List Bool := []
  transportOk : List Bool := []
  now : Nat := 0
deriving Repr, DecidableEq

/-- Events performed by the awaited code path of one call, in order. -/
inductive Event where
  /-- `handler.fn(args)` was invoked for this handler name. -/
  | attempt (handlerName : String)
  /-- The alert dispatcher POSTed its payload to the webhook. -/
  | alertPost (url tool err : String) (failureCount : Nat)
  /-- `console.error` (alert transport failure swallowed by the catch). -/
  | logError (msg : String)
  /-- The `alertN8n` promise settled (its `await` completed). -/
  | alertSettled
deriving Repr, DecidableEq

/-- Source `saveHealth`: `writeFileSync` of the full state.  The write
either succeeds (the file now holds `s`) or throws, which `saveHealth`
does NOT catch; a failed write leaves the file unchanged. -/
def saveHealth (s : HealthState) (w : World) : Except String Unit × World :=
  match w.saveOk with
  | [] => (.ok (), { w with stored := s })
  | ok :: rest =>
      if ok then (.ok (), { w with stored := s, saveOk := rest })
      else (.error "EIO: failed to write tool-health.json", { w with saveOk := rest })

/-- Source `recordSuccess`: re-load the file (`loadHealth` never fails —
its catch turns any read error into the empty object), overwrite the key
with the healthy record, save. -/
def recordSuccess (tool hname : String) (w : World) : Except String Unit × World :=
  saveHealth (setKey w.stored (healthKey tool hname) healthyRecord) w

/-- Source `recordFailure`: re-load, bump `failures`, stamp
`lastError` / `lastFailure`, set `degraded` once the count reaches the
threshold, save, and return the (possibly already true) `degraded` flag. -/
def recordFailure (tool hname err : String) (w : World) :
    Except String Bool × World :=
  let key := healthKey tool hname
  let h0 := getHandler w.stored key
  let h1 : HandlerHealth :=
    { h0 with failures := h0.failures + 1, lastError := some err,
              lastFailure := some w.now }
  let h2 := if FAILURE_THRESHOLD ≤ h1.failures then { h1 with degraded := true } else h1
  let w1 := { w with now := w.now + 1 }
  match saveHealth (setKey w.stored key h2) w1 with
  | (.ok _, w2) => (.ok h2.degraded, w2)
  | (.error e, w2) => (.error e, w2)

/-- Source `resetTool`: re-load, overwrite the key with the healthy
record, save. -/
def resetTool (tool hname : String) (w : World) : Except String Unit × World :=
  saveHealth (setKey w.stored (healthKey tool hname) healthyRecord) w

/-- Source `alertN8n`: a no-op when no webhook URL is configured;
otherwise POST the payload (reading the clock for the timestamp) and
swallow any transport failure with `console.error`.  The function never
throws, so its type carries no `Except`. -/
def alertN8n (cfg : Config) (tool err : String) (failureCount : Nat) (w : World) :
    List Event × World :=
  if cfg.webhookUrl = "" then ([], w)
  else
    let post := Event.alertPost cfg.webhookUrl tool err failureCount
    let step : Bool × World :=
      match w.transportOk with
      | [] => (true, { w with now := w.now + 1 })
      | b :: rest => (b, { w with now := w.now + 1, transportOk := rest })
    if step.1 then ([post, Event.alertSettled], step.2)
    else ([post, Event.logError "[resilience] Failed to alert n8n", Event.alertSettled], step.2)

/-- The MCP response envelope: `content` is the array of text items. -/
structure McpContent where
  content : List String
deriving Repr, DecidableEq

/-- The `[DISABLED]` envelope text returned when every handler is degraded. -/
def disabledText (tool : String) : String :=
  "[DISABLED] Tool \"" ++ tool ++
    "\" is temporarily disabled — all handlers are degraded. Use resetTool() to re-enable."

/-- The `[ERROR]` envelope text returned when the loop exhausts; JS renders
an undefined `lastError` as the string `undefined`. -/
def errorText (tool : String) (lastError : Option String) : String :=
  "[ERROR] Tool \"" ++ tool ++ "\" failed: " ++ lastError.getD "undefined"

/-- One handler for one call: its `name` and the outcome its `fn(args)`
settles to during this call (result text, or thrown error message). -/
structure CallHandler where
  name : String
  outcome : Except String String
deriving Repr

/-- The `for` loop of `withResilience`'s returned closure.  `state` is the
snapshot loaded at the start of the call (skip decisions never re-read the
file); `lastError` accumulates across failed attempts.  A handler is
skipped when it is degraded in the snapshot and a fallback exists
(`i < handlers.length - 1`).  An attempt's `try` block runs `fn` and, on
success, `recordSuccess`; the `catch` records the failure (treating a
`recordSuccess` throw like a handler failure), awaits the alert when
`recordFailure` reports the handler degraded, and falls through to the
next handler.  A throw out of `recordFailure` is uncaught and propagates. -/
def tryHandlers (cfg : Config) (tool : String) (state : HealthState) :
    List CallHandler → Option String → World →
      Except String McpContent × World × List Event
  | [], lastError, w =>
      (.ok ⟨[errorText tool lastError]⟩, w, [])
  | h :: rest, lastError, w =>
      if (getHandler state (healthKey tool h.name)).degraded && !rest.isEmpty then
        tryHandlers cfg tool state rest lastError w
      else
        match h.outcome with
        | .ok result =>
            match recordSuccess tool h.name w with
            | (.ok _, w1) => (.ok ⟨[result]⟩, w1, [Event.attempt h.name])
            | (.error e, w1) =>
                match recordFailure tool h.name e w1 with
                | (.error e2, w2) => (.error e2, w2, [Event.attempt h.name])
                | (.ok nowDegraded, w2) =>
                    let aw :=
                      if nowDegraded then
                        alertN8n cfg (healthKey tool h.name) e FAILURE_THRESHOLD w2
                      else ([], w2)
                    let r := tryHandlers cfg tool state rest (some e) aw.2
                    (r.1, r.2.1, Event.attempt h.name :: aw.1 ++ r.2.2)
        | .error msg =>
            match recordFailure tool h.name msg w with
            | (.error e2, w2) => (.error e2, w2, [Event.attempt h.name])
            | (.ok nowDegraded, w2) =>
                let aw :=
                  if nowDegraded then
                    alertN8n cfg (healthKey tool h.name) msg FAILURE_THRESHOLD w2
                  else ([], w2)
                let r := tryHandlers cfg tool state rest (some msg) aw.2
                (r.1, r.2.1, Event.attempt h.name :: aw.1 ++ r.2.2)

/-- One invocation of the closure returned by `withResilience`: load the
snapshot, short-circuit with the `[DISABLED]` envelope when every handler
in the list is degraded in it, otherwise run the fallback loop. -/
def executeCall (cfg : Config) (tool : String) (handlers : List CallHandler)
    (w : World) : Except String McpContent × World × List Event :=
  let state := w.stored
  if handlers.all (fun h => (getHandler state (healthKey tool h.name)).degraded) then
    (.ok ⟨[disabledText tool]⟩, w, [])
  else
    tryHandlers cfg tool state handlers none w

/-- Run a sequence of facade calls (one handler-outcome list per call),
concatenating their event traces. -/
def runCalls (cfg : Config) (tool : String) :
    List (List CallHandler) → World → World × List Event
  | [], w => (w, [])
  | hs :: rest, w =>
      let r := executeCall cfg tool hs w
      let r2 := runCalls cfg tool rest r.2.1
      (r2.1, r.2.2 ++ r2.2)

/-- Recognise an alert POST for a given `toolName:handlerName` key. -/
def isAlertPostFor (key : String) : Event → Bool
  | Event.alertPost _ t _ _ => t = key
  | _ => false

/-- Recognise an attempt of a given handler name. -/
def isAttemptOf (hname : String) : Event → Bool
  | Event.attempt n => n = hname
  | _ => false

/-- Recognise a `console.error` event. -/
def isLog : Event → Bool
  | Event.logError _ => true
  | _ => false

/-- The write-fault oracle injects no failure: every `writeFileSync`
during the run succeeds (the normal mode of operation). -/
def allSavesOk (w : World) : Prop := ∀ b ∈ w.saveOk, b = true

/-- `n` consecutive `recordFailure` calls for one handler with no
intervening success (the iteration the threshold claims quantify over). -/
def iterFail (tool hname err : String) : Nat → World → World
  | 0, w => w
  | n + 1, w => iterFail tool hname err n (recordFailure tool hname err w).2

end Resilience

namespace Resilience

/-! ## Helper lemmas about the store and the effect primitives -/

/-- String append is associative (used to exhibit substring decompositions
of the envelope texts). -/
theorem strAppendAssoc (a b c : String) : (a ++ b) ++ c = a ++ (b ++ c) := by
  cases a with
  | mk d1 =>
    cases b with
    | mk d2 =>
      cases c with
      | mk d3 =>
        show String.mk _ = String.mk _
        simp [String.append]

/-- Writing the same record twice is the same as writing it once. -/
theorem setKey_setKey (s : HealthState) (k : String) (v : HandlerHealth) :
    setKey (setKey s k v) k v = setKey s k v := by
  induction s with
  | nil => simp [setKey]
  | cons p rest ih =>
      rcases p with ⟨k0, v0⟩
      by_cases h : k0 = k
      · subst h; simp [setKey]
      · simp [setKey, h, ih]

/-- Reading back the key just written returns the written record. -/
theorem getHandler_setKey_self (s : HealthState) (k : String) (v : HandlerHealth) :
    getHandler (setKey s k v) k = v := by
  induction s with
  | nil => simp [setKey, getHandler, lookupKey]
  | cons p rest ih =>
      rcases p with ⟨k0, v0⟩
      by_cases h : k0 = k
      · subst h; simp [setKey, getHandler, lookupKey]
      · simpa [setKey, getHandler, lookupKey, h] using ih

/-- `allSavesOk` only looks at the write-fault oracle. -/
theorem allSavesOk_of_saveOk_eq {w1 w2 : World} (h : w1.saveOk = w2.saveOk)
    (h2 : allSavesOk w2) : allSavesOk w1 := by
  intro b hb
  exact h2 b (h ▸ hb)

/-- With no injected write fault, `saveHealth` returns normally, the file
now holds the new state, and the other effect components are untouched. -/
theorem saveHealth_allOk (s : HealthState) (w : World) (h : allSavesOk w) :
    (saveHealth s w).1 = .ok () ∧
    (saveHealth s w).2.stored = s ∧
    (saveHealth s w).2.transportOk = w.transportOk ∧
    (saveHealth s w).2.now = w.now ∧
    allSavesOk (saveHealth s w).2 := by
  cases hw : w.saveOk with
  | nil =>
      have hsave : saveHealth s w = (.ok (), { w with stored := s }) := by
        simp [saveHealth, hw]
      rw [hsave]
      refine ⟨rfl, rfl, rfl, rfl, ?_⟩
      intro x hx
      exact h x hx
  | cons b rest =>
      have hb : b = true := h b (by rw [hw]; exact List.mem_cons_self b rest)
      subst hb
      have hsave : saveHealth s w = (.ok (), { w with stored := s, saveOk := rest }) := by
        simp [saveHealth, hw]
      rw [hsave]
      refine ⟨rfl, rfl, rfl, rfl, ?_⟩
      intro x hx
      exact h x (by rw [hw]; exact List.mem_cons_of_mem _ hx)

/-- `recordSuccess` under fault-free writes: returns normally and persists
the healthy record at the handler's key. -/
theorem recordSuccess_allOk (tool hname : String) (w : World) (h : allSavesOk w) :
    (recordSuccess tool hname w).1 = .ok () ∧
    (recordSuccess tool hname w).2.stored =
      setKey w.stored (healthKey tool hname) healthyRecord ∧
    (recordSuccess tool hname w).2.transportOk = w.transportOk ∧
    allSavesOk (recordSuccess tool hname w).2 := by
  have := saveHealth_allOk (setKey w.stored (healthKey tool hname) healthyRecord) w h
  exact ⟨this.1, this.2.1, this.2.2.1, this.2.2.2.2⟩

end Resilience

namespace Resilience

/-- The record `recordFailure` writes, as a function of the previous
record: the counter is bumped, diagnostics stamped, and `degraded` is the
old flag or-ed with the threshold test on the new counter. -/
theorem recordFailure_allOk (tool hname err : String) (w : World) (h : allSavesOk w) :
    (recordFailure tool hname err w).1 =
      .ok ((getHandler w.stored (healthKey tool hname)).degraded ||
            decide (FAILURE_THRESHOLD ≤ (getHandler w.stored (healthKey tool hname)).failures + 1)) ∧
    (recordFailure tool hname err w).2.stored =
      setKey w.stored (healthKey tool hname)
        { failures := (getHandler w.stored (healthKey tool hname)).failures + 1,
          degraded := (getHandler w.stored (healthKey tool hname)).degraded ||
            decide (FAILURE_THRESHOLD ≤ (getHandler w.stored (healthKey tool hname)).failures + 1),
          lastError := some err,
          lastFailure := some w.now } ∧
    (recordFailure tool hname err w).2.transportOk = w.transportOk ∧
    allSavesOk (recordFailure tool hname err w).2 := by
  have h1 : allSavesOk { w with now := w.now + 1 } := fun b hb => h b hb
  have hs := saveHealth_allOk
    (setKey w.stored (healthKey tool hname)
      (if FAILURE_THRESHOLD ≤ (getHandler w.stored (healthKey tool hname)).failures + 1 then
        { failures := (getHandler w.stored (healthKey tool hname)).failures + 1,
          degraded := true, lastError := some err, lastFailure := some w.now }
       else
        { failures := (getHandler w.stored (healthKey tool hname)).failures + 1,
          degraded := (getHandler w.stored (healthKey tool hname)).degraded,
          lastError := some err, lastFailure := some w.now }))
    { w with now := w.now + 1 } h1
  rcases hsv : saveHealth
      (setKey w.stored (healthKey tool hname)
        (if FAILURE_THRESHOLD ≤ (getHandler w.stored (healthKey tool hname)).failures + 1 then
          { failures := (getHandler w.stored (healthKey tool hname)).failures + 1,
            degraded := true, lastError := some err, lastFailure := some w.now }
         else
          { failures := (getHandler w.stored (healthKey tool hname)).failures + 1,
            degraded := (getHandler w.stored (healthKey tool hname)).degraded,
            lastError := some err, lastFailure := some w.now }))
      { w with now := w.now + 1 } with ⟨res, w2⟩
  rw [hsv] at hs
  obtain ⟨hres, hst, htr, hnow, hall⟩ := hs
  subst hres
  by_cases hth : FAILURE_THRESHOLD ≤ (getHandler w.stored (healthKey tool hname)).failures + 1
  · have hrf : recordFailure tool hname err w = (.ok true, w2) := by
      simp only [recordFailure]
      rw [if_pos hth] at hsv ⊢
      rw [hsv]
    rw [hrf]
    rw [if_pos hth] at hst
    refine ⟨by simp [hth], by simpa [hth] using hst, htr, hall⟩
  · have hrf : recordFailure tool hname err w =
        (.ok (getHandler w.stored (healthKey tool hname)).degraded, w2) := by
      simp only [recordFailure]
      rw [if_neg hth] at hsv ⊢
      rw [hsv]
    rw [hrf]
    rw [if_neg hth] at hst
    refine ⟨by simp [hth], by simpa [hth] using hst, htr, hall⟩

/-- The alert dispatcher never touches the health file or the write-fault
oracle. -/
theorem alertN8n_world (cfg : Config) (tool err : String) (c : Nat) (w : World) :
    (alertN8n cfg tool err c w).2.stored = w.stored ∧
    (alertN8n cfg tool err c w).2.saveOk = w.saveOk := by
  by_cases hu : cfg.webhookUrl = ""
  · simp [alertN8n, hu]
  · cases ht : w.transportOk with
    | nil => by_cases hb : True <;> simp [alertN8n, hu, ht]
    | cons b rest =>
        cases b <;> simp [alertN8n, hu, ht]

end Resilience

namespace Resilience

/-- The loop skips a degraded handler when (and only in that it recurses
directly on) a later handler exists. -/
theorem tryHandlers_skip (cfg : Config) (tool : String) (state : HealthState)
    (h : CallHandler) (rest : List CallHandler) (le : Option String) (w : World)
    (hdeg : (getHandler state (healthKey tool h.name)).degraded = true)
    (hrest : rest ≠ []) :
    tryHandlers cfg tool state (h :: rest) le w = tryHandlers cfg tool state rest le w := by
  have hne : rest.isEmpty = false := by
    cases rest with
    | nil => exact absurd rfl hrest
    | cons a b => rfl
  simp [tryHandlers, hdeg, hne]

/-- When the skip condition does not hold, the handler is attempted: the
call's event trace begins with its `attempt` event, whatever `fn` and the
store then do. -/
theorem tryHandlers_attempt_head (cfg : Config) (tool : String) (state : HealthState)
    (h : CallHandler) (rest : List CallHandler) (le : Option String) (w : World)
    (hc : ((getHandler state (healthKey tool h.name)).degraded && !rest.isEmpty) = false) :
    ∃ tl, (tryHandlers cfg tool state (h :: rest) le w).2.2 = Event.attempt h.name :: tl := by
  cases ho : h.outcome with
  | ok r =>
      rcases hrs : recordSuccess tool h.name w with ⟨res, w1⟩
      cases res with
      | ok u => exact ⟨[], by simp [tryHandlers, hc, ho, hrs]⟩
      | error e =>
          rcases hrf : recordFailure tool h.name e w1 with ⟨res2, w2⟩
          cases res2 with
          | ok nd =>
              exact ⟨(if nd = true then
                  alertN8n cfg (healthKey tool h.name) e FAILURE_THRESHOLD w2
                else ([], w2)).1 ++
                  (tryHandlers cfg tool state rest (some e)
                    (if nd = true then
                      alertN8n cfg (healthKey tool h.name) e FAILURE_THRESHOLD w2
                    else ([], w2)).2).2.2,
                by simp [tryHandlers, hc, ho, hrs, hrf]⟩
          | error e2 => exact ⟨[], by simp [tryHandlers, hc, ho, hrs, hrf]⟩
  | error msg =>
      rcases hrf : recordFailure tool h.name msg w with ⟨res2, w2⟩
      cases res2 with
      | ok nd =>
          exact ⟨(if nd = true then
              alertN8n cfg (healthKey tool h.name) msg FAILURE_THRESHOLD w2
            else ([], w2)).1 ++
              (tryHandlers cfg tool state rest (some msg)
                (if nd = true then
                  alertN8n cfg (healthKey tool h.name) msg FAILURE_THRESHOLD w2
                else ([], w2)).2).2.2,
            by simp [tryHandlers, hc, ho, hrf]⟩
      | error e2 => exact ⟨[], by simp [tryHandlers, hc, ho, hrf]⟩

/-- A successful attempt under fault-free writes: the loop returns the
handler's rendered result at once, the healthy record is persisted at its
key, and nothing after the `attempt` event happens (no later handler runs). -/
theorem tryHandlers_success (cfg : Config) (tool : String) (state : HealthState)
    (h : CallHandler) (rest : List CallHandler) (le : Option String) (w : World)
    (r : String)
    (hc : ((getHandler state (healthKey tool h.name)).degraded && !rest.isEmpty) = false)
    (ho : h.outcome = .ok r) (hw : allSavesOk w) :
    (tryHandlers cfg tool state (h :: rest) le w).1 = .ok ⟨[r]⟩ ∧
    (tryHandlers cfg tool state (h :: rest) le w).2.1.stored =
      setKey w.stored (healthKey tool h.name) healthyRecord ∧
    (tryHandlers cfg tool state (h :: rest) le w).2.2 = [Event.attempt h.name] := by
  rcases hrs : recordSuccess tool h.name w with ⟨res, w1⟩
  have hra := recordSuccess_allOk tool h.name w hw
  rw [hrs] at hra
  cases res with
  | error e => exact absurd hra.1 (by simp)
  | ok u =>
      refine ⟨by simp [tryHandlers, hc, ho, hrs], ?_, by simp [tryHandlers, hc, ho, hrs]⟩
      have h2 : (tryHandlers cfg tool state (h :: rest) le w).2.1 = w1 := by
        simp [tryHandlers, hc, ho, hrs]
      rw [h2]
      exact hra.2.1

/-- Under fault-free writes the loop never throws: every path ends in a
rendered envelope. -/
theorem tryHandlers_ok (cfg : Config) (tool : String) (state : HealthState) :
    ∀ (hs : List CallHandler) (le : Option String) (w : World), allSavesOk w →
      ∃ m, (tryHandlers cfg tool state hs le w).1 = .ok m := by
  intro hs
  induction hs with
  | nil => intro le w _; exact ⟨_, rfl⟩
  | cons h rest ih =>
      intro le w hw
      by_cases hc : ((getHandler state (healthKey tool h.name)).degraded && !rest.isEmpty) = true
      · have hskip : tryHandlers cfg tool state (h :: rest) le w =
            tryHandlers cfg tool state rest le w := by
          simp [tryHandlers, hc]
        rw [hskip]
        exact ih le w hw
      · have hcf : ((getHandler state (healthKey tool h.name)).degraded && !rest.isEmpty) = false :=
          Bool.eq_false_iff.mpr hc
        cases ho : h.outcome with
        | ok r =>
            have := tryHandlers_success cfg tool state h rest le w r hcf ho hw
            exact ⟨⟨[r]⟩, this.1⟩
        | error msg =>
            rcases hrf : recordFailure tool h.name msg w with ⟨res, w2⟩
            have hra := recordFailure_allOk tool h.name msg w hw
            rw [hrf] at hra
            cases res with
            | error e => exact absurd hra.1 (by simp)
            | ok nd =>
                have hallw2 : allSavesOk w2 := hra.2.2.2
                cases nd with
                | false =>
                    obtain ⟨m, hm⟩ := ih (some msg) w2 hallw2
                    exact ⟨m, by simp [tryHandlers, hcf, ho, hrf, hm]⟩
                | true =>
                    have halert :=
                      (alertN8n_world cfg (healthKey tool h.name) msg FAILURE_THRESHOLD w2).2
                    have hallaw : allSavesOk
                        (alertN8n cfg (healthKey tool h.name) msg FAILURE_THRESHOLD w2).2 :=
                      allSavesOk_of_saveOk_eq halert hallw2
                    obtain ⟨m, hm⟩ := ih (some msg)
                      (alertN8n cfg (healthKey tool h.name) msg FAILURE_THRESHOLD w2).2 hallaw
                    exact ⟨m, by simp [tryHandlers, hcf, ho, hrf, hm]⟩

end Resilience

namespace Resilience

/-! ## Claim theorems -/

/-- C10: invoking the facade with an empty handler list makes the
all-degraded check vacuously true, so the call returns the `[DISABLED]`
envelope without attempting anything and without touching the persisted
state, and any list that is entirely degraded in the snapshot produces the
very same observable outcome — an empty list is indistinguishable from an
all-degraded list at the public interface. -/
theorem c10_empty_list_disabled (cfg : Config) (tool : String) (w : World) :
    executeCall cfg tool [] w = (.ok ⟨[disabledText tool]⟩, w, []) ∧
    (∀ hs : List CallHandler,
      (hs.all fun h => (getHandler w.stored (healthKey tool h.name)).degraded) = true →
      executeCall cfg tool hs w = executeCall cfg tool [] w) := by
  constructor
  · rfl
  · intro hs hall
    simp [executeCall, hall]

/-- Witness for C10 at a concrete degraded 1-handler list. -/
theorem c10_empty_list_disabled_witness :
    executeCall {} "tool" [] { stored := [("tool:h", { failures := 3, degraded := true })] } =
      (.ok ⟨[disabledText "tool"]⟩,
        { stored := [("tool:h", { failures := 3, degraded := true })] }, []) ∧
    executeCall {} "tool" [⟨"h", .ok "r"⟩]
        { stored := [("tool:h", { failures := 3, degraded := true })] } =
      executeCall {} "tool" [] { stored := [("tool:h", { failures := 3, degraded := true })] } :=
  ⟨(c10_empty_list_disabled {} "tool"
      { stored := [("tool:h", { failures := 3, degraded := true })] }).1,
   (c10_empty_list_disabled {} "tool"
      { stored := [("tool:h", { failures := 3, degraded := true })] }).2 _ (by decide)⟩

/-- C5: if every handler in the list is degraded in the snapshot loaded at
the start of the call, the facade attempts zero handlers (empty event
trace), mutates and persists nothing (the world is returned unchanged),
and returns a text envelope that starts with `[DISABLED]`, names the
tool, and instructs the caller to use the manual `resetTool()`. -/
theorem c5_all_degraded_short_circuit (cfg : Config) (tool : String)
    (handlers : List CallHandler) (w : World)
    (hall : (handlers.all fun h =>
      (getHandler w.stored (healthKey tool h.name)).degraded) = true) :
    executeCall cfg tool handlers w = (.ok ⟨[disabledText tool]⟩, w, []) ∧
    (∃ s1, disabledText tool = "[DISABLED]" ++ s1) ∧
    (∃ p2 s2, disabledText tool = p2 ++ tool ++ s2) ∧
    (∃ p3 s3, disabledText tool = p3 ++ "resetTool()" ++ s3) := by
  refine ⟨by simp [executeCall, hall], ?_, ?_, ?_⟩
  · refine ⟨" Tool \"" ++ tool ++
      "\" is temporarily disabled — all handlers are degraded. Use resetTool() to re-enable.", ?_⟩
    cases tool with
    | mk d =>
        show String.mk _ = String.mk _
        simp [String.append]
  · exact ⟨"[DISABLED] Tool \"",
      "\" is temporarily disabled — all handlers are degraded. Use resetTool() to re-enable.",
      rfl⟩
  · refine ⟨"[DISABLED] Tool \"" ++ tool ++
      "\" is temporarily disabled — all handlers are degraded. Use ", " to re-enable.", ?_⟩
    cases tool with
    | mk d =>
        show String.mk _ = String.mk _
        simp [String.append]

/-- Witness for C5 at a concrete 3-handler all-degraded list. -/
theorem c5_all_degraded_short_circuit_witness :
    executeCall {} "t"
        [⟨"a", .ok "ra"⟩, ⟨"b", .ok "rb"⟩, ⟨"c", .ok "rc"⟩]
        { stored := [("t:a", { failures := 3, degraded := true }),
                     ("t:b", { failures := 4, degraded := true }),
                     ("t:c", { failures := 3, degraded := true })] } =
      (.ok ⟨[disabledText "t"]⟩,
        { stored := [("t:a", { failures := 3, degraded := true }),
                     ("t:b", { failures := 4, degraded := true }),
                     ("t:c", { failures := 3, degraded := true })] }, []) ∧
    (∃ s1, disabledText "t" = "[DISABLED]" ++ s1) :=
  ⟨(c5_all_degraded_short_circuit {} "t"
      [⟨"a", .ok "ra"⟩, ⟨"b", .ok "rb"⟩, ⟨"c", .ok "rc"⟩]
      { stored := [("t:a", { failures := 3, degraded := true }),
                   ("t:b", { failures := 4, degraded := true }),
                   ("t:c", { failures := 3, degraded := true })] } (by decide)).1,
   (c5_all_degraded_short_circuit {} "t"
      [⟨"a", .ok "ra"⟩, ⟨"b", .ok "rb"⟩, ⟨"c", .ok "rc"⟩]
      { stored := [("t:a", { failures := 3, degraded := true }),
                   ("t:b", { failures := 4, degraded := true }),
                   ("t:c", { failures := 3, degraded := true })] } (by decide)).2.1⟩

/-- C9: `resetTool` is idempotent — under fault-free writes, resetting a
handler twice persists exactly the state resetting once persists, namely
the healthy record (`failureCount = 0`, `degraded = false`) at the
handler's key, and neither call throws; in particular resetting an
already-healthy handler leaves its record the same healthy record. -/
theorem c9_resetTool_idempotent (tool hname : String) (w : World)
    (hw : allSavesOk w) :
    (resetTool tool hname (resetTool tool hname w).2).2.stored =
      (resetTool tool hname w).2.stored ∧
    (resetTool tool hname w).2.stored =
      setKey w.stored (healthKey tool hname) healthyRecord ∧
    getHandler (resetTool tool hname w).2.stored (healthKey tool hname) = healthyRecord ∧
    (resetTool tool hname w).1 = .ok () ∧
    (resetTool tool hname (resetTool tool hname w).2).1 = .ok () := by
  have h1 := saveHealth_allOk (setKey w.stored (healthKey tool hname) healthyRecord) w hw
  have hall1 : allSavesOk (resetTool tool hname w).2 := h1.2.2.2.2
  have hst1 : (resetTool tool hname w).2.stored =
      setKey w.stored (healthKey tool hname) healthyRecord := h1.2.1
  have h2 := saveHealth_allOk
    (setKey (resetTool tool hname w).2.stored (healthKey tool hname) healthyRecord)
    (resetTool tool hname w).2 hall1
  refine ⟨?_, hst1, ?_, h1.1, h2.1⟩
  · have hst2 : (resetTool tool hname (resetTool tool hname w).2).2.stored =
        setKey (resetTool tool hname w).2.stored (healthKey tool hname) healthyRecord :=
      h2.2.1
    rw [hst2, hst1, setKey_setKey]
  · rw [hst1, getHandler_setKey_self]

/-- Witness for C9 at a concrete degraded record. -/
theorem c9_resetTool_idempotent_witness :
    (resetTool "t" "h" (resetTool "t" "h"
        { stored := [("t:h", { failures := 7, degraded := true })] }).2).2.stored =
      (resetTool "t" "h" { stored := [("t:h", { failures := 7, degraded := true })] }).2.stored ∧
    getHandler (resetTool "t" "h"
        { stored := [("t:h", { failures := 7, degraded := true })] }).2.stored "t:h" =
      healthyRecord :=
  ⟨(c9_resetTool_idempotent "t" "h"
      { stored := [("t:h", { failures := 7, degraded := true })] } (by simp [allSavesOk])).1,
   (c9_resetTool_idempotent "t" "h"
      { stored := [("t:h", { failures := 7, degraded := true })] } (by simp [allSavesOk])).2.2.1⟩

end Resilience

namespace Resilience

/-- Invariant of iterated failures: if the record's flag currently equals
the threshold test of its counter, then after `n` further uninterrupted
failures the counter has grown by `n` and the flag is the threshold test
of the new counter (writes stay fault-free throughout). -/
theorem iterFail_invariant (tool hname err : String) :
    ∀ (n : Nat) (w : World) (k : Nat), allSavesOk w →
      (getHandler w.stored (healthKey tool hname)).failures = k →
      (getHandler w.stored (healthKey tool hname)).degraded =
        decide (FAILURE_THRESHOLD ≤ k) →
      (getHandler (iterFail tool hname err n w).stored (healthKey tool hname)).failures
          = k + n ∧
      (getHandler (iterFail tool hname err n w).stored (healthKey tool hname)).degraded
          = decide (FAILURE_THRESHOLD ≤ k + n) ∧
      allSavesOk (iterFail tool hname err n w) := by
  intro n
  induction n with
  | zero =>
      intro w k hw hf hd
      exact ⟨by simpa [iterFail] using hf, by simpa [iterFail] using hd, by simpa [iterFail] using hw⟩
  | succ m ih =>
      intro w k hw hf hd
      have hra := recordFailure_allOk tool hname err w hw
      have hst : (recordFailure tool hname err w).2.stored =
          setKey w.stored (healthKey tool hname)
            { failures := k + 1,
              degraded := decide (FAILURE_THRESHOLD ≤ k) ||
                decide (FAILURE_THRESHOLD ≤ k + 1),
              lastError := some err, lastFailure := some w.now } := by
        rw [hra.2.1, hf, hd]
      have hdec : (decide (FAILURE_THRESHOLD ≤ k) || decide (FAILURE_THRESHOLD ≤ k + 1)) =
          decide (FAILURE_THRESHOLD ≤ k + 1) := by
        by_cases h3 : FAILURE_THRESHOLD ≤ k + 1
        · simp [h3]
        · have hk : ¬ FAILURE_THRESHOLD ≤ k := fun hh => h3 (le_trans hh (Nat.le_succ k))
          simp [h3, hk]
      have hfd : (getHandler (recordFailure tool hname err w).2.stored
          (healthKey tool hname)).failures = k + 1 := by
        rw [hst, getHandler_setKey_self]
      have hdd : (getHandler (recordFailure tool hname err w).2.stored
          (healthKey tool hname)).degraded = decide (FAILURE_THRESHOLD ≤ k + 1) := by
        rw [hst, getHandler_setKey_self]
        exact hdec
      have hstep : iterFail tool hname err (m + 1) w =
          iterFail tool hname err m (recordFailure tool hname err w).2 := rfl
      have hkm : k + (m + 1) = (k + 1) + m := by omega
      rw [hstep, hkm]
      exact ih (recordFailure tool hname err w).2 (k + 1) hra.2.2.2 hfd hdd

/-- C7: starting from a healthy record, `n` consecutive failures with no
intervening success leave `failures = n`, and `degraded` becomes true
exactly when `n` reaches the threshold `T = 3` — after 1 or 2 consecutive
failures it is still false. -/
theorem c7_threshold (tool hname err : String) (w : World) (n : Nat)
    (hw : allSavesOk w)
    (hh : getHandler w.stored (healthKey tool hname) = healthyRecord) :
    (getHandler (iterFail tool hname err n w).stored (healthKey tool hname)).failures = n ∧
    ((getHandler (iterFail tool hname err n w).stored (healthKey tool hname)).degraded
        = true ↔ FAILURE_THRESHOLD ≤ n) := by
  have h0f : (getHandler w.stored (healthKey tool hname)).failures = 0 := by
    rw [hh]; rfl
  have h0d : (getHandler w.stored (healthKey tool hname)).degraded =
      decide (FAILURE_THRESHOLD ≤ 0) := by
    rw [hh]; rfl
  have hres := iterFail_invariant tool hname err n w 0 hw h0f h0d
  refine ⟨by simpa using hres.1, ?_⟩
  rw [hres.2.1]
  simp

/-- Witness for C7: from the empty store, two failures leave the handler
not degraded at `failures = 2`, a third makes it degraded at
`failures = 3`. -/
theorem c7_threshold_witness :
    ((getHandler (iterFail "t" "h" "boom" 2 {}).stored "t:h").failures = 2 ∧
      ¬ (getHandler (iterFail "t" "h" "boom" 2 {}).stored "t:h").degraded = true) ∧
    ((getHandler (iterFail "t" "h" "boom" 3 {}).stored "t:h").failures = 3 ∧
      (getHandler (iterFail "t" "h" "boom" 3 {}).stored "t:h").degraded = true) := by
  have h2 := c7_threshold "t" "h" "boom" {} 2 (by simp [allSavesOk]) (by rfl)
  have h3 := c7_threshold "t" "h" "boom" {} 3 (by simp [allSavesOk]) (by rfl)
  exact ⟨⟨h2.1, fun hc => absurd (h2.2.mp hc) (by decide)⟩,
    ⟨h3.1, h3.2.mpr (by decide)⟩⟩

end Resilience

namespace Resilience

/-- C6: when an attempted handler succeeds under fault-free writes, the
loop persists the healthy record (`failureCount = 0`, `degraded = false`)
at that handler's key and returns the handler's result immediately: the
event trace of the whole call is just this one attempt, so no later
handler is ever attempted (first success wins). -/
theorem c6_first_success_wins (cfg : Config) (tool : String) (state : HealthState)
    (h : CallHandler) (rest : List CallHandler) (le : Option String) (w : World)
    (r : String)
    (hc : ((getHandler state (healthKey tool h.name)).degraded && !rest.isEmpty) = false)
    (ho : h.outcome = .ok r) (hw : allSavesOk w) :
    (tryHandlers cfg tool state (h :: rest) le w).1 = .ok ⟨[r]⟩ ∧
    (tryHandlers cfg tool state (h :: rest) le w).2.1.stored =
      setKey w.stored (healthKey tool h.name) healthyRecord ∧
    getHandler (tryHandlers cfg tool state (h :: rest) le w).2.1.stored
      (healthKey tool h.name) = healthyRecord ∧
    (tryHandlers cfg tool state (h :: rest) le w).2.2 = [Event.attempt h.name] := by
  have hs := tryHandlers_success cfg tool state h rest le w r hc ho hw
  refine ⟨hs.1, hs.2.1, ?_, hs.2.2⟩
  rw [hs.2.1]
  exact getHandler_setKey_self _ _ _

/-- Witness for C6: first handler succeeds ahead of a second handler that
is never attempted. -/
theorem c6_first_success_wins_witness :
    (tryHandlers {} "t" [] [⟨"h", .ok "payload"⟩, ⟨"g", .ok "other"⟩] none {}).1 =
      .ok ⟨["payload"]⟩ ∧
    getHandler (tryHandlers {} "t" [] [⟨"h", .ok "payload"⟩, ⟨"g", .ok "other"⟩]
      none {}).2.1.stored "t:h" = healthyRecord ∧
    (tryHandlers {} "t" [] [⟨"h", .ok "payload"⟩, ⟨"g", .ok "other"⟩] none {}).2.2 =
      [Event.attempt "h"] := by
  have hs := c6_first_success_wins {} "t" [] ⟨"h", .ok "payload"⟩ [⟨"g", .ok "other"⟩]
    none {} "payload" (by decide) rfl (by simp [allSavesOk])
  exact ⟨hs.1, hs.2.2.1, hs.2.2.2⟩

/-- C4: when the loop reaches a degraded handler, it skips it (recursing
on the remaining handlers with nothing else changed) precisely when some
handler exists after it; the last handler is attempted even if degraded —
its attempt event leads the trace — and when that attempt succeeds under
fault-free writes the handler self-heals: the healthy record is persisted
and its result is returned. -/
theorem c4_degraded_skip_iff (cfg : Config) (tool : String) (state : HealthState)
    (h : CallHandler) (rest : List CallHandler) (le : Option String) (w : World)
    (hdeg : (getHandler state (healthKey tool h.name)).degraded = true) :
    ((tryHandlers cfg tool state (h :: rest) le w =
        tryHandlers cfg tool state rest le w) ↔ rest ≠ []) ∧
    (rest = [] →
      (∃ tl, (tryHandlers cfg tool state (h :: rest) le w).2.2 =
        Event.attempt h.name :: tl) ∧
      (∀ r, h.outcome = .ok r → allSavesOk w →
        (tryHandlers cfg tool state (h :: rest) le w).1 = .ok ⟨[r]⟩ ∧
        getHandler (tryHandlers cfg tool state (h :: rest) le w).2.1.stored
          (healthKey tool h.name) = healthyRecord)) := by
  constructor
  · constructor
    · intro heq hrest
      subst hrest
      have hc : ((getHandler state (healthKey tool h.name)).degraded &&
          !(List.isEmpty (α := CallHandler) [])) = false := by simp
      obtain ⟨tl, htl⟩ := tryHandlers_attempt_head cfg tool state h [] le w hc
      rw [heq] at htl
      simp [tryHandlers] at htl
    · intro hrest
      exact tryHandlers_skip cfg tool state h rest le w hdeg hrest
  · intro hrest
    subst hrest
    have hc : ((getHandler state (healthKey tool h.name)).degraded &&
        !(List.isEmpty (α := CallHandler) [])) = false := by simp
    refine ⟨tryHandlers_attempt_head cfg tool state h [] le w hc, ?_⟩
    intro r ho hw
    have hs := tryHandlers_success cfg tool state h [] le w r hc ho hw
    refine ⟨hs.1, ?_⟩
    rw [hs.2.1]
    exact getHandler_setKey_self _ _ _

/-- Witness for C4: with the handler degraded, a non-empty tail makes the
call identical to the call on the tail (skip), while as last handler it is
attempted and self-heals on success. -/
theorem c4_degraded_skip_iff_witness :
    tryHandlers {} "t" [("t:h", { failures := 3, degraded := true })]
        [⟨"h", .ok "r"⟩, ⟨"g", .ok "s"⟩] none {} =
      tryHandlers {} "t" [("t:h", { failures := 3, degraded := true })]
        [⟨"g", .ok "s"⟩] none {} ∧
    (tryHandlers {} "t" [("t:h", { failures := 3, degraded := true })]
        [⟨"h", .ok "r"⟩] none {}).1 = .ok ⟨["r"]⟩ ∧
    getHandler (tryHandlers {} "t" [("t:h", { failures := 3, degraded := true })]
        [⟨"h", .ok "r"⟩] none {}).2.1.stored "t:h" = healthyRecord := by
  have h1 := (c4_degraded_skip_iff {} "t" [("t:h", { failures := 3, degraded := true })]
    ⟨"h", .ok "r"⟩ [⟨"g", .ok "s"⟩] none {} (by decide)).1.mpr (by simp)
  have h2 := ((c4_degraded_skip_iff {} "t" [("t:h", { failures := 3, degraded := true })]
    ⟨"h", .ok "r"⟩ [] none {} (by decide)).2 rfl).2 "r" rfl (by simp [allSavesOk])
  exact ⟨h1, h2.1, h2.2⟩

/-- C1 counterexample: a 1-handler list whose sole handler is degraded is
NOT attempted — the all-degraded short-circuit fires first, returning the
`[DISABLED]` envelope with an empty event trace (zero attempts) and an
unchanged world, even though the handler would have succeeded. -/
theorem c1_sole_degraded_counterexample :
    executeCall {} "t" [⟨"h", .ok "ok"⟩]
        { stored := [("t:h", { failures := 3, degraded := true })] } =
      (.ok ⟨[disabledText "t"]⟩,
        { stored := [("t:h", { failures := 3, degraded := true })] }, []) ∧
    (executeCall {} "t" [⟨"h", .ok "ok"⟩]
        { stored := [("t:h", { failures := 3, degraded := true })] }).2.2.countP
      (isAttemptOf "h") = 0 := by
  constructor <;> rfl

/-- C1 amended: a sole degraded handler is rejected by the all-degraded
short-circuit without being attempted (`[DISABLED]`, no state change); a
sole handler is attempted precisely when it is not degraded in the
snapshot, and a successful attempt under fault-free writes resets its
record to `failureCount = 0`, `degraded = false`. -/
theorem c1_sole_handler_amended (cfg : Config) (tool : String) (h : CallHandler)
    (w : World) :
    ((getHandler w.stored (healthKey tool h.name)).degraded = true →
      executeCall cfg tool [h] w = (.ok ⟨[disabledText tool]⟩, w, [])) ∧
    ((getHandler w.stored (healthKey tool h.name)).degraded = false →
      (∃ tl, (executeCall cfg tool [h] w).2.2 = Event.attempt h.name :: tl) ∧
      (∀ r, h.outcome = .ok r → allSavesOk w →
        (executeCall cfg tool [h] w).1 = .ok ⟨[r]⟩ ∧
        getHandler (executeCall cfg tool [h] w).2.1.stored (healthKey tool h.name) =
          healthyRecord)) := by
  constructor
  · intro hdeg
    simp [executeCall, hdeg]
  · intro hdeg
    have hexec : executeCall cfg tool [h] w = tryHandlers cfg tool w.stored [h] none w := by
      simp [executeCall, hdeg]
    have hc : ((getHandler w.stored (healthKey tool h.name)).degraded &&
        !(List.isEmpty (α := CallHandler) [])) = false := by simp [hdeg]
    rw [hexec]
    refine ⟨tryHandlers_attempt_head cfg tool w.stored h [] none w hc, ?_⟩
    intro r ho hw
    have hs := tryHandlers_success cfg tool w.stored h [] none w r hc ho hw
    refine ⟨hs.1, ?_⟩
    rw [hs.2.1]
    exact getHandler_setKey_self _ _ _

/-- Witness for the amended C1: a degraded sole handler short-circuits; a
healthy sole handler is attempted, succeeds, and its record is reset. -/
theorem c1_sole_handler_amended_witness :
    executeCall {} "t" [⟨"h", .ok "r"⟩]
        { stored := [("t:h", { failures := 3, degraded := true })] } =
      (.ok ⟨[disabledText "t"]⟩,
        { stored := [("t:h", { failures := 3, degraded := true })] }, []) ∧
    (executeCall {} "t" [⟨"h", .ok "r"⟩] {}).1 = .ok ⟨["r"]⟩ ∧
    getHandler (executeCall {} "t" [⟨"h", .ok "r"⟩] {}).2.1.stored "t:h" =
      healthyRecord := by
  have h1 := (c1_sole_handler_amended {} "t" ⟨"h", .ok "r"⟩
    { stored := [("t:h", { failures := 3, degraded := true })] }).1 (by decide)
  have h2 := ((c1_sole_handler_amended {} "t" ⟨"h", .ok "r"⟩ {}).2 (by decide)).2
    "r" rfl (by simp [allSavesOk])
  exact ⟨h1, h2.1, h2.2⟩

end Resilience

namespace Resilience

/-- C3 counterexample: a failure to persist health state DOES propagate to
the caller.  With one injected write fault, a call whose handler fails
makes `recordFailure`'s `saveHealth` throw, and the exception escapes the
facade (`Except.error`), while the identical call with the write
succeeding returns the rendered `[ERROR]` envelope. -/
theorem c3_persistence_failure_counterexample :
    (executeCall {} "t" [⟨"h", .error "boom"⟩] { saveOk := [false] }).1 =
      .error "EIO: failed to write tool-health.json" ∧
    (executeCall {} "t" [⟨"h", .error "boom"⟩] { saveOk := [true] }).1 =
      .ok ⟨[errorText "t" (some "boom")]⟩ := by
  constructor <;> rfl

/-- C3 amended: as long as every health-file write succeeds, the facade
never raises — every handler outcome is caught at the executor boundary
and rendered as an envelope (success text, `[DISABLED]`, or `[ERROR]`);
but a `saveHealth` write failure is uncaught and propagates. -/
theorem c3_never_raises_amended (cfg : Config) (tool : String)
    (handlers : List CallHandler) (w : World) (hw : allSavesOk w) :
    ∃ m, (executeCall cfg tool handlers w).1 = .ok m := by
  by_cases hall : (handlers.all fun h =>
      (getHandler w.stored (healthKey tool h.name)).degraded) = true
  · exact ⟨⟨[disabledText tool]⟩, by simp [executeCall, hall]⟩
  · have hf : (handlers.all fun h =>
        (getHandler w.stored (healthKey tool h.name)).degraded) = false :=
      Bool.eq_false_iff.mpr hall
    obtain ⟨m, hm⟩ := tryHandlers_ok cfg tool w.stored handlers none w hw
    exact ⟨m, by simp [executeCall, hf, hm]⟩

/-- Witness for the amended C3: a failing-handler call with fault-free
writes returns an envelope. -/
theorem c3_never_raises_amended_witness :
    ∃ m, (executeCall {} "t" [⟨"h", .error "boom"⟩] {}).1 = .ok m :=
  c3_never_raises_amended {} "t" [⟨"h", .error "boom"⟩] {} (by simp [allSavesOk])

/-- With a webhook configured, one alert dispatch POSTs exactly once
(never retried), whatever the transport outcome. -/
theorem alertN8n_count (cfg : Config) (tool err : String) (c : Nat) (w : World)
    (hurl : cfg.webhookUrl ≠ "") :
    ((alertN8n cfg tool err c w).1).countP (isAlertPostFor tool) = 1 := by
  cases ht : w.transportOk with
  | nil => simp [alertN8n, hurl, ht, isAlertPostFor]
  | cons b rest => cases b <;> simp [alertN8n, hurl, ht, isAlertPostFor]

/-- C2 counterexample: handler `b` starts already degraded (no threshold
crossing happens in this run); across two consecutive facade calls both of
its attempted failures dispatch an alert — two alerts in a run of
consecutive failures with no intervening success, where the claim allows
at most the single crossing alert. -/
theorem c2_alert_once_counterexample :
    (getHandler [("t:b", { failures := 3, degraded := true })] "t:b").degraded = true ∧
    ((runCalls { webhookUrl := "http://n8n" } "t"
        [[⟨"a", .error "ea"⟩, ⟨"b", .error "eb"⟩],
         [⟨"a", .error "ea2"⟩, ⟨"b", .error "eb2"⟩]]
        { stored := [("t:b", { failures := 3, degraded := true })] }).2).countP
      (isAlertPostFor "t:b") = 2 := by
  constructor <;> rfl

/-- C2 amended: an alert is dispatched on EVERY attempted failure whose
updated record is degraded — at the threshold-crossing failure and at
every attempted failure of an already-degraded handler — because
`recordFailure` returns the current `degraded` flag, not the crossing.
For an attempted (last-position) failing handler the number of alerts in
the call is 1 exactly when the handler was already degraded or its bumped
counter reaches the threshold, and 0 below the threshold. -/
theorem c2_alert_per_degraded_failure (cfg : Config) (tool : String)
    (state : HealthState) (h : CallHandler) (le : Option String) (w : World)
    (msg : String)
    (ho : h.outcome = .error msg) (hw : allSavesOk w) (hurl : cfg.webhookUrl ≠ "") :
    ((tryHandlers cfg tool state [h] le w).2.2).countP
        (isAlertPostFor (healthKey tool h.name)) =
      if (getHandler w.stored (healthKey tool h.name)).degraded ||
          decide (FAILURE_THRESHOLD ≤
            (getHandler w.stored (healthKey tool h.name)).failures + 1)
      then 1 else 0 := by
  rcases hrf : recordFailure tool h.name msg w with ⟨res, w2⟩
  have hra := recordFailure_allOk tool h.name msg w hw
  rw [hrf] at hra
  cases res with
  | error e => exact absurd hra.1 (by simp)
  | ok nd =>
      have hnd : nd = ((getHandler w.stored (healthKey tool h.name)).degraded ||
          decide (FAILURE_THRESHOLD ≤
            (getHandler w.stored (healthKey tool h.name)).failures + 1)) := by
        simpa using hra.1
      rw [← hnd]
      cases nd with
      | false => simp [tryHandlers, ho, hrf, isAlertPostFor]
      | true =>
          have hcount := alertN8n_count cfg (healthKey tool h.name) msg
            FAILURE_THRESHOLD w2 hurl
          simp [tryHandlers, ho, hrf, isAlertPostFor, List.countP_append, hcount]

/-- Witness for the amended C2: a third consecutive failure (crossing the
threshold) dispatches exactly one alert. -/
theorem c2_alert_per_degraded_failure_witness :
    ((tryHandlers { webhookUrl := "http://n8n" } "t"
        [("t:h", { failures := 2, degraded := false })]
        [⟨"h", .error "boom"⟩] none
        { stored := [("t:h", { failures := 2, degraded := false })] }).2.2).countP
      (isAlertPostFor "t:h") = 1 :=
  (c2_alert_per_degraded_failure { webhookUrl := "http://n8n" } "t"
    [("t:h", { failures := 2, degraded := false })] ⟨"h", .error "boom"⟩ none
    { stored := [("t:h", { failures := 2, degraded := false })] } "boom"
    rfl (by simp [allSavesOk]) (by decide)).trans (by rfl)

end Resilience

namespace Resilience

/-- C8 counterexample: the alert IS awaited on the critical path.  In a
concrete call, handler `a`'s third failure dispatches the alert and the
executor awaits its settlement (`alertSettled` in the call's own trace)
BEFORE attempting handler `b`, whose success produces the returned
result — so the path that returns the tool's result does await the
outbound alert call. -/
theorem c8_alert_awaited_counterexample :
    executeCall { webhookUrl := "http://n8n" } "t"
        [⟨"a", .error "ea"⟩, ⟨"b", .ok "ok-b"⟩]
        { stored := [("t:a", { failures := 2, degraded := false })] } =
      (.ok ⟨["ok-b"]⟩,
        { stored := [("t:a", { failures := 3, degraded := true,
                               lastError := some "ea", lastFailure := some 0 }),
                     ("t:b", { failures := 0, degraded := false })],
          now := 2 },
        [Event.attempt "a", Event.alertPost "http://n8n" "t:a" "ea" 3,
         Event.alertSettled, Event.attempt "b"]) ∧
    (executeCall { webhookUrl := "http://n8n" } "t"
        [⟨"a", .error "ea"⟩, ⟨"b", .ok "ok-b"⟩]
        { stored := [("t:a", { failures := 2, degraded := false })] }).2.2.indexOf
      Event.alertSettled <
    (executeCall { webhookUrl := "http://n8n" } "t"
        [⟨"a", .error "ea"⟩, ⟨"b", .ok "ok-b"⟩]
        { stored := [("t:a", { failures := 2, degraded := false })] }).2.2.indexOf
      (Event.attempt "b") := by
  constructor
  · rfl
  · decide

/-- C8 amended: the executor awaits the alert — after a failure reported
degraded, the call's trace is the attempt, then the whole (settled) alert
dispatch, then everything the continuation does; and the dispatcher is
contained: a missing webhook URL makes it a silent no-op, it POSTs at most
once per dispatch (no retry), it never touches the health file or the
write oracle, and a transport failure changes only the logged events — the
world it returns is the same whatever the transport outcome. -/
theorem c8_alert_dispatch_amended (cfg : Config) (tool err : String) (c : Nat)
    (w : World) :
    (cfg.webhookUrl = "" → alertN8n cfg tool err c w = ([], w)) ∧
    ((alertN8n cfg tool err c w).1.countP (isAlertPostFor tool) ≤ 1) ∧
    (alertN8n cfg tool err c w).2.stored = w.stored ∧
    (alertN8n cfg tool err c w).2.saveOk = w.saveOk ∧
    (cfg.webhookUrl ≠ "" →
      ((alertN8n cfg tool err c w).1.filter (fun e => !isLog e) =
        [Event.alertPost cfg.webhookUrl tool err c, Event.alertSettled]) ∧
      (∀ b rest2, w.transportOk = b :: rest2 →
        (alertN8n cfg tool err c w).2 =
          { w with transportOk := rest2, now := w.now + 1 })) ∧
    (∀ (state : HealthState) (h : CallHandler) (hs : List CallHandler)
        (le : Option String) (msg : String),
      ((getHandler state (healthKey tool h.name)).degraded && !hs.isEmpty) = false →
      h.outcome = .error msg →
      (recordFailure tool h.name msg w).1 = .ok true →
      (tryHandlers cfg tool state (h :: hs) le w).2.2 =
        Event.attempt h.name ::
          (alertN8n cfg (healthKey tool h.name) msg FAILURE_THRESHOLD
            (recordFailure tool h.name msg w).2).1 ++
          (tryHandlers cfg tool state hs (some msg)
            (alertN8n cfg (healthKey tool h.name) msg FAILURE_THRESHOLD
              (recordFailure tool h.name msg w).2).2).2.2) := by
  refine ⟨?_, ?_, (alertN8n_world cfg tool err c w).1,
    (alertN8n_world cfg tool err c w).2, ?_, ?_⟩
  · intro hu
    simp [alertN8n, hu]
  · by_cases hu : cfg.webhookUrl = ""
    · simp [alertN8n, hu]
    · rw [alertN8n_count cfg tool err c w hu]
  · intro hu
    constructor
    · cases ht : w.transportOk with
      | nil => simp [alertN8n, hu, ht, isLog]
      | cons b rest => cases b <;> simp [alertN8n, hu, ht, isLog]
    · intro b rest2 ht
      cases b <;> simp [alertN8n, hu, ht]
  · intro state h hs le msg hc ho hrftrue
    rcases hrf : recordFailure tool h.name msg w with ⟨res, w2⟩
    rw [hrf] at hrftrue
    have hres : res = .ok true := hrftrue
    subst hres
    simp [tryHandlers, hc, ho, hrf]

/-- Witness for the amended C8 at a concrete threshold failure with the
webhook configured and a transport fault injected. -/
theorem c8_alert_dispatch_amended_witness :
    ((alertN8n { webhookUrl := "http://n8n" } "t:a" "ea" 3
        { transportOk := [false] }).1.filter (fun e => !isLog e) =
      [Event.alertPost "http://n8n" "t:a" "ea" 3, Event.alertSettled]) ∧
    ((alertN8n { webhookUrl := "http://n8n" } "t:a" "ea" 3
        { transportOk := [false] }).2 =
      { transportOk := [], now := 0 + 1 }) ∧
    ((tryHandlers { webhookUrl := "http://n8n" } "t"
        [("t:a", { failures := 2, degraded := false })]
        [⟨"a", .error "ea"⟩, ⟨"b", .ok "ok-b"⟩] none
        { stored := [("t:a", { failures := 2, degraded := false })] }).2.2 =
      Event.attempt "a" ::
        (alertN8n { webhookUrl := "http://n8n" } (healthKey "t" "a") "ea"
          FAILURE_THRESHOLD
          (recordFailure "t" "a" "ea"
            { stored := [("t:a", { failures := 2, degraded := false })] }).2).1 ++
        (tryHandlers { webhookUrl := "http://n8n" } "t"
          [("t:a", { failures := 2, degraded := false })]
          [⟨"b", .ok "ok-b"⟩] (some "ea")
          (alertN8n { webhookUrl := "http://n8n" } (healthKey "t" "a") "ea"
            FAILURE_THRESHOLD
            (recordFailure "t" "a" "ea"
              { stored := [("t:a", { failures := 2, degraded := false })] }).2).2).2.2) := by
  refine ⟨?_, ?_, ?_⟩
  · exact ((c8_alert_dispatch_amended { webhookUrl := "http://n8n" } "t:a" "ea" 3
      { transportOk := [false] }).2.2.2.2.1 (by decide)).1
  · exact ((c8_alert_dispatch_amended { webhookUrl := "http://n8n" } "t:a" "ea" 3
      { transportOk := [false] }).2.2.2.2.1 (by decide)).2 false [] rfl
  · exact (c8_alert_dispatch_amended { webhookUrl := "http://n8n" } "t" "ea" 3
      { stored := [("t:a", { failures := 2, degraded := false })] }).2.2.2.2.2
      [("t:a", { failures := 2, degraded := false })] ⟨"a", .error "ea"⟩
      [⟨"b", .ok "ok-b"⟩] none "ea" (by decide) rfl rfl

end Resilience
